import Mathlib

/-!
Shallow embedding of the dualsensectl report codec and trigger-effect
encoder (src/src/Dualsense.c, src/src/main.c).  Buffers are lists of
byte values (`Nat`, kept below 256 by the operations that the C code
performs on `uint8_t` stores), machine integers are `Nat` with explicit
masks where the C code masks or truncates.
-/

namespace Dualsensectl

/-- Constants from the header block of Dualsense.c. -/
def DS_OUTPUT_REPORT_USB : Nat := 0x02
def DS_OUTPUT_REPORT_BT : Nat := 0x31
def DS_OUTPUT_TAG : Nat := 0x10
def PS_OUTPUT_CRC32_SEED : Nat := 0xA2

def DS_OUTPUT_VALID_FLAG0_RIGHT_TRIGGER_MOTOR_ENABLE : Nat := 4
def DS_OUTPUT_VALID_FLAG0_LEFT_TRIGGER_MOTOR_ENABLE : Nat := 8
def DS_OUTPUT_VALID_FLAG0_HEADPHONE_VOLUME_ENABLE : Nat := 16
def DS_OUTPUT_VALID_FLAG0_SPEAKER_VOLUME_ENABLE : Nat := 32
def DS_OUTPUT_VALID_FLAG0_AUDIO_CONTROL_ENABLE : Nat := 128
def DS_OUTPUT_VALID_FLAG1_MIC_MUTE_LED_CONTROL_ENABLE : Nat := 1
def DS_OUTPUT_VALID_FLAG1_POWER_SAVE_CONTROL_ENABLE : Nat := 2
def DS_OUTPUT_VALID_FLAG1_LIGHTBAR_CONTROL_ENABLE : Nat := 4
def DS_OUTPUT_VALID_FLAG1_PLAYER_INDICATOR_CONTROL_ENABLE : Nat := 16
def DS_OUTPUT_VALID_FLAG1_VIBRATION_ATTENUATION_ENABLE : Nat := 64
def DS_OUTPUT_VALID_FLAG2_LIGHTBAR_SETUP_CONTROL_ENABLE : Nat := 2
def DS_OUTPUT_POWER_SAVE_CONTROL_MIC_MUTE : Nat := 16
def DS_OUTPUT_LIGHTBAR_SETUP_LIGHT_ON : Nat := 1
def DS_OUTPUT_LIGHTBAR_SETUP_LIGHT_OUT : Nat := 2
def DS_OUTPUT_AUDIO_OUTPUT_PATH_SHIFT : Nat := 4

def DS_STATUS_BATTERY_CAPACITY : Nat := 0xF
def DS_STATUS_CHARGING : Nat := 0xF0
def DS_STATUS_CHARGING_SHIFT : Nat := 4

def DS_TRIGGER_EFFECT_OFF : Nat := 0x05
def DS_TRIGGER_EFFECT_FEEDBACK : Nat := 0x21
def DS_TRIGGER_EFFECT_BOW : Nat := 0x22
def DS_TRIGGER_EFFECT_GALLOPING : Nat := 0x23
def DS_TRIGGER_EFFECT_WEAPON : Nat := 0x25
def DS_TRIGGER_EFFECT_VIBRATION : Nat := 0x26
def DS_TRIGGER_EFFECT_MACHINE : Nat := 0x27

/-- The session state `struct dualsense` (the fields the codec uses:
transport kind and the rolling output sequence counter, a `uint8_t`). -/
structure Dualsense where
  bt : Bool
  output_seq : Nat
  deriving Repr, DecidableEq

/-- `struct dualsense_output_report_common` (47 packed bytes).  The two
trigger parameter arrays and the reserved blocks are byte lists; all
fields start zeroed, matching the `memset` in
`dualsense_init_output_report`. -/
structure Common where
  valid_flag0 : Nat := 0
  valid_flag1 : Nat := 0
  motor_right : Nat := 0
  motor_left : Nat := 0
  headphone_audio_volume : Nat := 0
  speaker_audio_volume : Nat := 0
  internal_microphone_volume : Nat := 0
  audio_flags : Nat := 0
  mute_button_led : Nat := 0
  power_save_control : Nat := 0
  right_trigger_motor_mode : Nat := 0
  right_trigger_param : List Nat := List.replicate 10 0
  left_trigger_motor_mode : Nat := 0
  left_trigger_param : List Nat := List.replicate 10 0
  reserved2 : List Nat := List.replicate 4 0
  reduce_motor_power : Nat := 0
  audio_flags2 : Nat := 0
  valid_flag2 : Nat := 0
  reserved3 : List Nat := List.replicate 2 0
  lightbar_setup : Nat := 0
  led_brightness : Nat := 0
  player_leds : Nat := 0
  lightbar_red : Nat := 0
  lightbar_green : Nat := 0
  lightbar_blue : Nat := 0
  deriving Repr, DecidableEq

/-- Byte serialization of the packed common block, in declaration
order of `struct dualsense_output_report_common`. -/
def serializeCommon (c : Common) : List Nat :=
  [c.valid_flag0, c.valid_flag1, c.motor_right, c.motor_left,
   c.headphone_audio_volume, c.speaker_audio_volume,
   c.internal_microphone_volume, c.audio_flags, c.mute_button_led,
   c.power_save_control, c.right_trigger_motor_mode]
  ++ c.right_trigger_param
  ++ [c.left_trigger_motor_mode]
  ++ c.left_trigger_param
  ++ c.reserved2
  ++ [c.reduce_motor_power, c.audio_flags2, c.valid_flag2]
  ++ c.reserved3
  ++ [c.lightbar_setup, c.led_brightness, c.player_leds,
      c.lightbar_red, c.lightbar_green, c.lightbar_blue]

/-- The transport-tagged output report under construction: the fields of
`struct dualsense_output_report` that survive in the embedding (`bt`
selects the layout, `seq_tag` is the BT header's second byte, `common`
the shared block; the BT `tag` byte and both reserved tails are fixed by
serialization, the BT CRC is filled in by `dualsense_send_output_report`). -/
structure ReportState where
  bt : Bool
  seq_tag : Nat
  common : Common
  deriving Repr, DecidableEq

/-- `dualsense_init_output_report`: zero the buffer, set the report id
(USB 0x02 / BT 0x31), for BT set the tag byte and place the current
sequence counter in the high nibble of `seq_tag`, then advance the
`uint8_t` counter and wrap it to 0 when it reaches 16. -/
def dualsense_init_output_report (ds : Dualsense) : ReportState × Dualsense :=
  if ds.bt then
    let rp : ReportState :=
      { bt := true, seq_tag := ((ds.output_seq <<< 4) ||| 0x0) % 256, common := {} }
    let seq := (ds.output_seq + 1) % 256
    (rp, { ds with output_seq := if seq = 16 then 0 else seq })
  else
    ({ bt := false, seq_tag := 0, common := {} }, ds)

/-- Serialize a report under construction to the byte buffer `hid_write`
receives: BT is `report_id, seq_tag, tag, common, reserved[24], crc32`
(78 bytes, CRC still zero here); USB is `report_id, common, reserved[15]`
(63 bytes). -/
def serializeReport (rp : ReportState) : List Nat :=
  if rp.bt then
    DS_OUTPUT_REPORT_BT :: rp.seq_tag :: DS_OUTPUT_TAG ::
      (serializeCommon rp.common ++ List.replicate 24 0 ++ List.replicate 4 0)
  else
    DS_OUTPUT_REPORT_USB :: (serializeCommon rp.common ++ List.replicate 15 0)

/-- Modelled from the spec: the repository's `crc32.c` / `crc32.h`
(providing `crc32_le`) is not under `src/`; this is the standard
reflected CRC-32 step (polynomial 0xEDB88320) the spec's "CRC32"
refers to, without pre/post-inversion (the caller applies those). -/
def crc32_step (c : Nat) : Nat :=
  (c >>> 1) ^^^ (if c &&& 1 = 1 then 0xEDB88320 else 0)

/-- Modelled from the spec: fold one byte into a running raw CRC-32. -/
def crc32_byte (c b : Nat) : Nat :=
  (crc32_step ∘ crc32_step ∘ crc32_step ∘ crc32_step ∘
   crc32_step ∘ crc32_step ∘ crc32_step ∘ crc32_step)
    ((c ^^^ (b % 256)) % 2 ^ 32)

/-- Modelled from the spec: `crc32_le(crc, data, len)` over a byte list. -/
def crc32_le (crc : Nat) (data : List Nat) : Nat :=
  data.foldl crc32_byte crc

/-- Little-endian 4-byte encoding of a 32-bit value (the in-memory image
of the packed `uint32_t crc32` field). -/
def le32 (x : Nat) : List Nat :=
  [x &&& 0xFF, (x >>> 8) &&& 0xFF, (x >>> 16) &&& 0xFF, (x >>> 24) &&& 0xFF]

/-- `dualsense_send_output_report`: for a BT report overwrite the last 4
bytes with `~crc32_le(crc32_le(0xFFFFFFFF, [0xA2]), data[0 .. len-4])`
stored little-endian; a USB report is written as-is. -/
def dualsense_send_output_report (bt : Bool) (data : List Nat) : List Nat :=
  if bt then
    let crc :=
      0xFFFFFFFF ^^^ crc32_le (crc32_le 0xFFFFFFFF [PS_OUTPUT_CRC32_SEED])
        (data.take (data.length - 4))
    data.take (data.length - 4) ++ le32 crc
  else data

/-- Outcome of one command invocation: the session state afterwards, the
report that was handed to `dualsense_send_output_report`/`hid_write`
(`none` when the command returned before building/sending one), and the
C function's `int` return value. -/
structure SendResult where
  ds : Dualsense
  built : Option ReportState
  exit : Nat
  deriving Repr, DecidableEq

/-- The bytes a command invocation actually wrote to the transport
(CRC filled in for BT), if any. -/
def SendResult.sent (r : SendResult) : Option (List Nat) :=
  r.built.map fun rp => dualsense_send_output_report rp.bt (serializeReport rp)

/-- `command_lightbar1`: init, enable lightbar-setup control, pick the
setup byte from the state string; an unrecognized state returns 1 after
init without sending. -/
def command_lightbar1 (ds : Dualsense) (state : String) : SendResult :=
  let rp := (dualsense_init_output_report ds).1
  let ds' := (dualsense_init_output_report ds).2
  let c := { rp.common with valid_flag2 := DS_OUTPUT_VALID_FLAG2_LIGHTBAR_SETUP_CONTROL_ENABLE }
  if state = "on" then
    { ds := ds', built := some { rp with common := { c with lightbar_setup := DS_OUTPUT_LIGHTBAR_SETUP_LIGHT_ON } }, exit := 0 }
  else if state = "off" then
    { ds := ds', built := some { rp with common := { c with lightbar_setup := DS_OUTPUT_LIGHTBAR_SETUP_LIGHT_OUT } }, exit := 0 }
  else
    { ds := ds', built := none, exit := 1 }

/-- `command_lightbar3`: RGB scaled by `brightness * v / 255` in `int`
arithmetic then stored to `uint8_t` (always ≤ 255 for byte inputs). -/
def command_lightbar3 (ds : Dualsense) (red green blue brightness : Nat) : SendResult :=
  let rp := (dualsense_init_output_report ds).1
  let ds' := (dualsense_init_output_report ds).2
  let c := { rp.common with
    valid_flag1 := DS_OUTPUT_VALID_FLAG1_LIGHTBAR_CONTROL_ENABLE,
    lightbar_red := brightness * red / 255,
    lightbar_green := brightness * green / 255,
    lightbar_blue := brightness * blue / 255 }
  { ds := ds', built := some { rp with common := c }, exit := 0 }

/-- The fixed 6-entry `player_ids` bit-pattern table. -/
def player_ids : List Nat := [0, 4, 10, 21, 27, 31]

/-- `command_player_leds`: numbers above 5 are rejected before the
report is initialized. -/
def command_player_leds (ds : Dualsense) (number : Nat) : SendResult :=
  if number > 5 then { ds := ds, built := none, exit := 1 }
  else
    let rp := (dualsense_init_output_report ds).1
  let ds' := (dualsense_init_output_report ds).2
    let c := { rp.common with
      valid_flag1 := DS_OUTPUT_VALID_FLAG1_PLAYER_INDICATOR_CONTROL_ENABLE,
      player_leds := player_ids.getD number 0 }
    { ds := ds', built := some { rp with common := c }, exit := 0 }

/-- `command_microphone`: clears or sets the mic-mute bit of the zeroed
`power_save_control` byte. -/
def command_microphone (ds : Dualsense) (state : String) : SendResult :=
  let rp := (dualsense_init_output_report ds).1
  let ds' := (dualsense_init_output_report ds).2
  let c := { rp.common with valid_flag1 := DS_OUTPUT_VALID_FLAG1_POWER_SAVE_CONTROL_ENABLE }
  if state = "on" then
    { ds := ds', built := some { rp with common := { c with power_save_control := c.power_save_control &&& (255 - DS_OUTPUT_POWER_SAVE_CONTROL_MIC_MUTE) } }, exit := 0 }
  else if state = "off" then
    { ds := ds', built := some { rp with common := { c with power_save_control := c.power_save_control ||| DS_OUTPUT_POWER_SAVE_CONTROL_MIC_MUTE } }, exit := 0 }
  else
    { ds := ds', built := none, exit := 1 }

/-- `command_microphone_led`. -/
def command_microphone_led (ds : Dualsense) (state : String) : SendResult :=
  let rp := (dualsense_init_output_report ds).1
  let ds' := (dualsense_init_output_report ds).2
  let c := { rp.common with valid_flag1 := DS_OUTPUT_VALID_FLAG1_MIC_MUTE_LED_CONTROL_ENABLE }
  if state = "on" then
    { ds := ds', built := some { rp with common := { c with mute_button_led := 1 } }, exit := 0 }
  else if state = "off" then
    { ds := ds', built := some { rp with common := { c with mute_button_led := 0 } }, exit := 0 }
  else
    { ds := ds', built := none, exit := 1 }

/-- `command_speaker`: one of four fixed audio-path codes shifted into
the output-path field. -/
def command_speaker (ds : Dualsense) (state : String) : SendResult :=
  let rp := (dualsense_init_output_report ds).1
  let ds' := (dualsense_init_output_report ds).2
  let c := { rp.common with valid_flag0 := DS_OUTPUT_VALID_FLAG0_AUDIO_CONTROL_ENABLE }
  if state = "internal" then
    { ds := ds', built := some { rp with common := { c with audio_flags := 3 <<< DS_OUTPUT_AUDIO_OUTPUT_PATH_SHIFT } }, exit := 0 }
  else if state = "headphone" then
    { ds := ds', built := some { rp with common := { c with audio_flags := 0 } }, exit := 0 }
  else if state = "monoheadphone" then
    { ds := ds', built := some { rp with common := { c with audio_flags := 1 <<< DS_OUTPUT_AUDIO_OUTPUT_PATH_SHIFT } }, exit := 0 }
  else if state = "both" then
    { ds := ds', built := some { rp with common := { c with audio_flags := 2 <<< DS_OUTPUT_AUDIO_OUTPUT_PATH_SHIFT } }, exit := 0 }
  else
    { ds := ds', built := none, exit := 1 }

/-- `command_volume`: headphone volume `volume*0x7f/255`, speaker volume
`volume*0x64/255`, both enable flags set. -/
def command_volume (ds : Dualsense) (volume : Nat) : SendResult :=
  let rp := (dualsense_init_output_report ds).1
  let ds' := (dualsense_init_output_report ds).2
  let c := { rp.common with
    valid_flag0 := DS_OUTPUT_VALID_FLAG0_HEADPHONE_VOLUME_ENABLE ||| DS_OUTPUT_VALID_FLAG0_SPEAKER_VOLUME_ENABLE,
    headphone_audio_volume := volume * 0x7f / 255,
    speaker_audio_volume := volume * 0x64 / 255 }
  { ds := ds', built := some { rp with common := c }, exit := 0 }

/-- `command_vibration_attenuation`: pack `(rumble&7) | ((trigger&7)<<4)`. -/
def command_vibration_attenuation (ds : Dualsense) (rumble_attenuation trigger_attenuation : Nat) : SendResult :=
  let rp := (dualsense_init_output_report ds).1
  let ds' := (dualsense_init_output_report ds).2
  let c := { rp.common with
    valid_flag1 := DS_OUTPUT_VALID_FLAG1_VIBRATION_ATTENUATION_ENABLE,
    reduce_motor_power := (rumble_attenuation &&& 0x07) ||| ((trigger_attenuation &&& 0x07) <<< 4) }
  { ds := ds', built := some { rp with common := c }, exit := 0 }

/-- `command_trigger`: sets the right/left enable bits of `valid_flag0`
according to the `trigger` string, then writes `mode` and the nine
parameter bytes identically into both trigger blocks (array indices
0 through 8 of the zero-initialized 10-byte arrays). -/
def command_trigger (ds : Dualsense) (trigger : String)
    (mode param1 param2 param3 param4 param5 param6 param7 param8 param9 : Nat) : SendResult :=
  let rp := (dualsense_init_output_report ds).1
  let ds' := (dualsense_init_output_report ds).2
  let vf0 := if trigger = "right" ∨ trigger = "both" then DS_OUTPUT_VALID_FLAG0_RIGHT_TRIGGER_MOTOR_ENABLE else 0
  let vf0 := if trigger = "left" ∨ trigger = "both" then vf0 ||| DS_OUTPUT_VALID_FLAG0_LEFT_TRIGGER_MOTOR_ENABLE else vf0
  let params := fun (a : List Nat) =>
    ((((((((a.set 0 param1).set 1 param2).set 2 param3).set 3 param4).set 4
        param5).set 5 param6).set 6 param7).set 7 param8).set 8 param9
  let c := { rp.common with
    valid_flag0 := vf0,
    right_trigger_motor_mode := mode,
    right_trigger_param := params rp.common.right_trigger_param,
    left_trigger_motor_mode := mode,
    left_trigger_param := params rp.common.left_trigger_param }
  { ds := ds', built := some { rp with common := c }, exit := 0 }

/-- `command_trigger_off`. -/
def command_trigger_off (ds : Dualsense) (trigger : String) : SendResult :=
  command_trigger ds trigger DS_TRIGGER_EFFECT_OFF 0 0 0 0 0 0 0 0 0

/-- The validation/packing loop of `trigger_bitpacking_array`: walk the
strength entries with their index; an entry above 8 aborts (the C code
returns 1 there); a positive entry sets bit `i` of the 16-bit
`active_zones` word and ORs `(value-1)&7` into bits `3*i..3*i+2` of the
32-bit `strength_zones` word.  Returns `(strength_zones, active_zones)`. -/
def bitpack_go : List Nat → Nat → Nat → Nat → Option (Nat × Nat)
  | [], _, strength_zones, active_zones => some (strength_zones, active_zones)
  | v :: rest, i, strength_zones, active_zones =>
    if v > 8 then none
    else if v > 0 then
      bitpack_go rest (i + 1)
        (strength_zones ||| (((v - 1) &&& 0x07) <<< (3 * i)))
        (active_zones ||| (1 <<< i))
    else bitpack_go rest (i + 1) strength_zones active_zones

/-- `trigger_bitpacking_array`: validate/pack the 10-entry strength
array, then hand the packed words to `command_trigger` byte by byte
(params 7 and 8 are 0, param 9 is the frequency). -/
def trigger_bitpacking_array (ds : Dualsense) (trigger : String) (mode : Nat)
    (strength : List Nat) (frequency : Nat) : SendResult :=
  match bitpack_go strength 0 0 0 with
  | none => { ds := ds, built := none, exit := 1 }
  | some (strength_zones, active_zones) =>
    command_trigger ds trigger mode
      ((active_zones >>> 0) &&& 0xff)
      ((active_zones >>> 8) &&& 0xff)
      ((strength_zones >>> 0) &&& 0xff)
      ((strength_zones >>> 8) &&& 0xff)
      ((strength_zones >>> 16) &&& 0xff)
      ((strength_zones >>> 24) &&& 0xff)
      0 0 frequency

/-- The strength array `command_trigger_feedback` and
`command_trigger_vibration` build: zero-initialized, then entries from
`position` up to 9 set to `strength`. -/
def feedback_strength_array (position strength : Nat) : List Nat :=
  (List.range 10).map fun i => if position ≤ i then strength else 0

/-- `command_trigger_feedback`: position 0–9, strength 1–8, then the
shared bit-packing with frequency 0. -/
def command_trigger_feedback (ds : Dualsense) (trigger : String) (position strength : Nat) : SendResult :=
  if position > 9 then { ds := ds, built := none, exit := 1 }
  else if strength > 8 ∨ ¬strength > 0 then { ds := ds, built := none, exit := 1 }
  else trigger_bitpacking_array ds trigger DS_TRIGGER_EFFECT_FEEDBACK
    (feedback_strength_array position strength) 0

/-- `command_trigger_weapon`: start 2–7, end start+1–8, strength 1–8;
zone bitmap `(1<<start)|(1<<end)`, strength byte `strength-1`. -/
def command_trigger_weapon (ds : Dualsense) (trigger : String)
    (start_position end_position strength : Nat) : SendResult :=
  if start_position > 7 ∨ start_position < 2 then { ds := ds, built := none, exit := 1 }
  else if end_position > 8 ∨ end_position < start_position + 1 then { ds := ds, built := none, exit := 1 }
  else if strength > 8 ∨ ¬strength > 0 then { ds := ds, built := none, exit := 1 }
  else
    let start_stop_zones := ((1 <<< start_position) ||| (1 <<< end_position)) % 2 ^ 16
    command_trigger ds trigger DS_TRIGGER_EFFECT_WEAPON
      ((start_stop_zones >>> 0) &&& 0xff)
      ((start_stop_zones >>> 8) &&& 0xff)
      (strength - 1)
      0 0 0 0 0 0

/-- `command_trigger_bow`: the C guard rejects `start_position = 0`
(`!(start_position > 0)`) even though its own diagnostic says the range
is 0–8; end start+1–8, strength 1–8, snap force 1–8; force byte
`((strength-1)&7) | (((snap_force-1)&7)<<3)`. -/
def command_trigger_bow (ds : Dualsense) (trigger : String)
    (start_position end_position strength snap_force : Nat) : SendResult :=
  if start_position > 8 ∨ ¬start_position > 0 then { ds := ds, built := none, exit := 1 }
  else if end_position > 8 ∨ end_position < start_position + 1 then { ds := ds, built := none, exit := 1 }
  else if strength > 8 ∨ ¬strength > 0 then { ds := ds, built := none, exit := 1 }
  else if snap_force > 8 ∨ ¬snap_force > 0 then { ds := ds, built := none, exit := 1 }
  else
    let start_stop_zones := ((1 <<< start_position) ||| (1 <<< end_position)) % 2 ^ 16
    let force_pair := (((strength - 1) &&& 0x07) ||| (((snap_force - 1) &&& 0x07) <<< 3)) % 2 ^ 16
    command_trigger ds trigger DS_TRIGGER_EFFECT_BOW
      ((start_stop_zones >>> 0) &&& 0xff)
      ((start_stop_zones >>> 8) &&& 0xff)
      ((force_pair >>> 0) &&& 0xff)
      0 0 0 0 0 0

/-- `command_trigger_galloping`: start 0–8, end start+1–9, first foot
0–6, second foot firstFoot+1–7, frequency > 0 (above 8 only logs);
ratio byte `(secondFoot&7) | ((firstFoot&7)<<3)`. -/
def command_trigger_galloping (ds : Dualsense) (trigger : String)
    (start_position end_position first_foot second_foot frequency : Nat) : SendResult :=
  if start_position > 8 then { ds := ds, built := none, exit := 1 }
  else if end_position > 9 ∨ end_position < start_position + 1 then { ds := ds, built := none, exit := 1 }
  else if first_foot > 6 then { ds := ds, built := none, exit := 1 }
  else if second_foot > 7 ∨ second_foot < first_foot + 1 then { ds := ds, built := none, exit := 1 }
  else if ¬frequency > 0 then { ds := ds, built := none, exit := 1 }
  else
    let start_stop_zones := ((1 <<< start_position) ||| (1 <<< end_position)) % 2 ^ 16
    let ratio := ((second_foot &&& 0x07) ||| ((first_foot &&& 0x07) <<< 3)) % 2 ^ 16
    command_trigger ds trigger DS_TRIGGER_EFFECT_GALLOPING
      ((start_stop_zones >>> 0) &&& 0xff)
      ((start_stop_zones >>> 8) &&& 0xff)
      ((ratio >>> 0) &&& 0xff)
      frequency
      0 0 0 0 0

/-- `command_trigger_machine`: start 1–8, end start+1–9, strengths 0–7,
frequency > 0, period unchecked; force byte
`(strengthA&7) | ((strengthB&7)<<3)`. -/
def command_trigger_machine (ds : Dualsense) (trigger : String)
    (start_position end_position strength_a strength_b frequency period : Nat) : SendResult :=
  if start_position > 8 ∨ ¬start_position > 0 then { ds := ds, built := none, exit := 1 }
  else if end_position > 9 ∨ end_position < start_position + 1 then { ds := ds, built := none, exit := 1 }
  else if strength_a > 7 then { ds := ds, built := none, exit := 1 }
  else if strength_b > 7 then { ds := ds, built := none, exit := 1 }
  else if ¬frequency > 0 then { ds := ds, built := none, exit := 1 }
  else
    let start_stop_zones := ((1 <<< start_position) ||| (1 <<< end_position)) % 2 ^ 16
    let force_pair := ((strength_a &&& 0x07) ||| ((strength_b &&& 0x07) <<< 3)) % 2 ^ 16
    command_trigger ds trigger DS_TRIGGER_EFFECT_MACHINE
      ((start_stop_zones >>> 0) &&& 0xff)
      ((start_stop_zones >>> 8) &&& 0xff)
      ((force_pair >>> 0) &&& 0xff)
      frequency
      period
      0 0 0 0

/-- `command_trigger_vibration`: position 0–9, amplitude 1–8,
frequency > 0; same array construction as feedback. -/
def command_trigger_vibration (ds : Dualsense) (trigger : String)
    (position amplitude frequency : Nat) : SendResult :=
  if position > 9 then { ds := ds, built := none, exit := 1 }
  else if amplitude > 8 ∨ ¬amplitude > 0 then { ds := ds, built := none, exit := 1 }
  else if ¬frequency > 0 then { ds := ds, built := none, exit := 1 }
  else trigger_bitpacking_array ds trigger DS_TRIGGER_EFFECT_VIBRATION
    (feedback_strength_array position amplitude) frequency

/-- `command_trigger_feedback_raw`: the caller-supplied 10-entry array
goes straight to the shared bit-packing with frequency 0. -/
def command_trigger_feedback_raw (ds : Dualsense) (trigger : String) (strength : List Nat) : SendResult :=
  trigger_bitpacking_array ds trigger DS_TRIGGER_EFFECT_FEEDBACK strength 0

/-- `command_trigger_vibration_raw`: the caller-supplied 10-entry array
and frequency go straight to the shared bit-packing; the frequency is
not validated anywhere on this path (neither here nor in main.c). -/
def command_trigger_vibration_raw (ds : Dualsense) (trigger : String)
    (strength : List Nat) (frequency : Nat) : SendResult :=
  trigger_bitpacking_array ds trigger DS_TRIGGER_EFFECT_VIBRATION strength frequency

/-- The trigger-effect command surface (the `trigger` subcommands of
main.c), one constructor per `command_trigger*` entry point with its C
argument list. -/
inductive TCmd where
  | trigger (t : String) (mode p1 p2 p3 p4 p5 p6 p7 p8 p9 : Nat)
  | off (t : String)
  | feedback (t : String) (position strength : Nat)
  | weapon (t : String) (s e st : Nat)
  | bow (t : String) (s e st sn : Nat)
  | galloping (t : String) (s e ff sf fr : Nat)
  | machine (t : String) (s e sa sb fr pe : Nat)
  | vibration (t : String) (p a f : Nat)
  | feedback_raw (t : String) (strength : List Nat)
  | vibration_raw (t : String) (strength : List Nat) (f : Nat)

/-- Dispatch a trigger-effect command to its C function. -/
def runTCmd (ds : Dualsense) : TCmd → SendResult
  | .trigger t m p1 p2 p3 p4 p5 p6 p7 p8 p9 => command_trigger ds t m p1 p2 p3 p4 p5 p6 p7 p8 p9
  | .off t => command_trigger_off ds t
  | .feedback t p s => command_trigger_feedback ds t p s
  | .weapon t s e st => command_trigger_weapon ds t s e st
  | .bow t s e st sn => command_trigger_bow ds t s e st sn
  | .galloping t s e ff sf fr => command_trigger_galloping ds t s e ff sf fr
  | .machine t s e sa sb fr pe => command_trigger_machine ds t s e sa sb fr pe
  | .vibration t p a f => command_trigger_vibration ds t p a f
  | .feedback_raw t l => command_trigger_feedback_raw ds t l
  | .vibration_raw t l f => command_trigger_vibration_raw ds t l f

/-- Every output-report-building command of the repository: the
non-trigger commands plus the whole trigger-effect surface.
(`command_battery` and `command_info` only read and build no output
report; `command_power_off` and the monitor are transport/D-Bus paths.) -/
inductive Cmd where
  | lightbar1 (state : String)
  | lightbar3 (red green blue brightness : Nat)
  | player_leds (number : Nat)
  | microphone (state : String)
  | microphone_led (state : String)
  | speaker (state : String)
  | volume (v : Nat)
  | vibration_attenuation (r t : Nat)
  | triggerEffect (tc : TCmd)

/-- Dispatch any report-building command to its C function. -/
def runCmd (ds : Dualsense) : Cmd → SendResult
  | .lightbar1 s => command_lightbar1 ds s
  | .lightbar3 r g b br => command_lightbar3 ds r g b br
  | .player_leds n => command_player_leds ds n
  | .microphone s => command_microphone ds s
  | .microphone_led s => command_microphone_led ds s
  | .speaker s => command_speaker ds s
  | .volume v => command_volume ds v
  | .vibration_attenuation r t => command_vibration_attenuation ds r t
  | .triggerEffect tc => runTCmd ds tc

/-- A freshly opened USB session: `dualsense_init` zeroes the struct, so
`output_seq` starts at 0 and `bt` is false for a USB interface. -/
def usbSession : Dualsense := { bt := false, output_seq := 0 }

/-- A freshly opened Bluetooth session. -/
def btSession : Dualsense := { bt := true, output_seq := 0 }

/-- The session state after `n` output reports have been initialized in
one Bluetooth session. -/
def iterBuildBT : Nat → Dualsense
  | 0 => btSession
  | n + 1 => (dualsense_init_output_report (iterBuildBT n)).2

/-- The shape invariant of the packed common block: the two trigger
parameter arrays hold 10 bytes and the reserved blocks 4 and 2, as in
`struct dualsense_output_report_common`. -/
def wfCommon (c : Common) : Prop :=
  c.right_trigger_param.length = 10 ∧ c.left_trigger_param.length = 10 ∧
  c.reserved2.length = 4 ∧ c.reserved3.length = 2

/-- All commands arriving at the transport with a built report satisfy
this: the report's transport matches the session and its common block is
well-shaped. -/
def builtOK (ds : Dualsense) (r : SendResult) : Prop :=
  ∀ rp ∈ r.built, rp.bt = ds.bt ∧ wfCommon rp.common

/-- If a report was built, index 9 (the 10th byte) of both trigger
parameter arrays still holds the zero the `memset` put there. -/
def param9Zero (r : SendResult) : Prop :=
  r.built.elim True (fun rp =>
    rp.common.right_trigger_param.getD 9 0 = 0 ∧
    rp.common.left_trigger_param.getD 9 0 = 0)

/-- The pure status-byte mapping at the end of `command_battery`: low
nibble is the battery level, the nibble above it the charging code;
returns (capacity, state string). -/
def batteryFromStatus (status : Nat) : Nat × String :=
  let battery_data := status &&& DS_STATUS_BATTERY_CAPACITY
  let charging_status := (status &&& DS_STATUS_CHARGING) >>> DS_STATUS_CHARGING_SHIFT
  if charging_status = 0x0 then (min (battery_data * 10 + 5) 100, "discharging")
  else if charging_status = 0x1 then (min (battery_data * 10 + 5) 100, "charging")
  else if charging_status = 0x2 then (100, "full")
  else if charging_status = 0xa ∨ charging_status = 0xb then (0, "not-charging")
  else (0, "unknown")

/-! ## Helper lemmas -/

lemma init_bt (ds : Dualsense) : (dualsense_init_output_report ds).1.bt = ds.bt := by
  cases h : ds.bt <;> simp [dualsense_init_output_report, h]

lemma init_common (ds : Dualsense) : (dualsense_init_output_report ds).1.common = {} := by
  cases h : ds.bt <;> simp [dualsense_init_output_report, h]

lemma serializeCommon_length (c : Common) (h : wfCommon c) : (serializeCommon c).length = 47 := by
  obtain ⟨h1, h2, h3, h4⟩ := h
  simp [serializeCommon, h1, h2, h3, h4]

lemma serializeReport_length (rp : ReportState) (h : wfCommon rp.common) :
    (serializeReport rp).length = if rp.bt then 78 else 63 := by
  cases hb : rp.bt <;> simp [serializeReport, hb, serializeCommon_length rp.common h]

lemma send_length (bt : Bool) (data : List Nat) (h : 4 ≤ data.length) :
    (dualsense_send_output_report bt data).length = data.length := by
  cases bt with
  | false => rfl
  | true =>
    simp only [dualsense_send_output_report, if_true, List.length_append, List.length_take, le32,
      List.length_cons, List.length_nil]
    omega

lemma builtOK_err (ds ds' : Dualsense) (e : Nat) : builtOK ds ⟨ds', none, e⟩ := by
  intro rp h
  simp at h

lemma builtOK_command_trigger (ds : Dualsense) (t : String) (m p1 p2 p3 p4 p5 p6 p7 p8 p9 : Nat) :
    builtOK ds (command_trigger ds t m p1 p2 p3 p4 p5 p6 p7 p8 p9) := by
  intro rp h
  simp only [command_trigger, Option.mem_def, Option.some.injEq] at h
  subst h
  refine ⟨init_bt ds, ?_⟩
  simp [wfCommon, init_common]

lemma builtOK_bitpacking (ds : Dualsense) (t : String) (m : Nat) (l : List Nat) (f : Nat) :
    builtOK ds (trigger_bitpacking_array ds t m l f) := by
  unfold trigger_bitpacking_array
  cases h : bitpack_go l 0 0 0 with
  | none => exact builtOK_err ds ds 1
  | some pr => exact builtOK_command_trigger ds t m _ _ _ _ _ _ 0 0 f

lemma builtOK_runCmd (ds : Dualsense) (cmd : Cmd) : builtOK ds (runCmd ds cmd) := by
  cases cmd with
  | triggerEffect tc =>
    cases tc <;>
      simp only [runCmd, runTCmd, command_trigger_off, command_trigger_feedback,
        command_trigger_weapon, command_trigger_bow, command_trigger_galloping,
        command_trigger_machine, command_trigger_vibration,
        command_trigger_feedback_raw, command_trigger_vibration_raw] <;>
      first
        | exact builtOK_command_trigger ds _ _ _ _ _ _ _ _ _ _ _
        | exact builtOK_bitpacking ds _ _ _ _
        | (split_ifs <;>
            first
              | exact builtOK_err ds _ _
              | exact builtOK_command_trigger ds _ _ _ _ _ _ _ _ _ _ _
              | exact builtOK_bitpacking ds _ _ _ _)
  | _ =>
    simp only [runCmd, command_lightbar1, command_lightbar3, command_player_leds,
      command_microphone, command_microphone_led, command_speaker, command_volume,
      command_vibration_attenuation]
    first
      | (split_ifs <;>
          first
            | exact builtOK_err ds _ _
            | (intro rp h; simp only [Option.mem_def, Option.some.injEq] at h; subst h;
               exact ⟨init_bt ds, by simp [wfCommon, init_common]⟩))
      | (intro rp h; simp only [Option.mem_def, Option.some.injEq] at h; subst h;
         exact ⟨init_bt ds, by simp [wfCommon, init_common]⟩)

lemma command_trigger_params (ds : Dualsense) (t : String) (m p1 p2 p3 p4 p5 p6 p7 p8 p9 : Nat) :
    (command_trigger ds t m p1 p2 p3 p4 p5 p6 p7 p8 p9).built.elim True (fun rp =>
      rp.common.right_trigger_param = [p1, p2, p3, p4, p5, p6, p7, p8, p9, 0] ∧
      rp.common.left_trigger_param = [p1, p2, p3, p4, p5, p6, p7, p8, p9, 0]) := by
  simp only [command_trigger, Option.elim_some]
  rw [init_common]
  exact ⟨rfl, rfl⟩

lemma param9Zero_err (ds : Dualsense) (e : Nat) : param9Zero ⟨ds, none, e⟩ := trivial

lemma param9Zero_command_trigger (ds : Dualsense) (t : String) (m p1 p2 p3 p4 p5 p6 p7 p8 p9 : Nat) :
    param9Zero (command_trigger ds t m p1 p2 p3 p4 p5 p6 p7 p8 p9) := by
  have h := command_trigger_params ds t m p1 p2 p3 p4 p5 p6 p7 p8 p9
  unfold param9Zero
  cases hb : (command_trigger ds t m p1 p2 p3 p4 p5 p6 p7 p8 p9).built with
  | none => trivial
  | some rp =>
    rw [hb] at h
    simp only [Option.elim_some] at h ⊢
    rw [h.1, h.2]
    exact ⟨rfl, rfl⟩

lemma param9Zero_bitpacking (ds : Dualsense) (t : String) (m : Nat) (l : List Nat) (f : Nat) :
    param9Zero (trigger_bitpacking_array ds t m l f) := by
  unfold trigger_bitpacking_array
  cases h : bitpack_go l 0 0 0 with
  | none => exact param9Zero_err ds 1
  | some pr => exact param9Zero_command_trigger ds t m _ _ _ _ _ _ 0 0 f

lemma bitpack_go_none (l : List Nat) :
    ∀ i sz az : Nat, (∃ v ∈ l, v > 8) → bitpack_go l i sz az = none := by
  induction l with
  | nil =>
    intro i sz az h
    simp at h
  | cons v rest ih =>
    intro i sz az h
    simp only [List.mem_cons] at h
    obtain ⟨w, hw, hw8⟩ := h
    by_cases hv : v > 8
    · simp [bitpack_go, hv]
    · rcases hw with rfl | hw
      · omega
      · by_cases hv0 : v > 0 <;> simp only [bitpack_go, hv, hv0, if_true, if_false] <;>
          exact ih _ _ _ ⟨w, hw, hw8⟩

lemma bitpack_go_isSome (l : List Nat) :
    ∀ i sz az : Nat, (∀ v ∈ l, v ≤ 8) → (bitpack_go l i sz az).isSome = true := by
  induction l with
  | nil =>
    intro i sz az _
    rfl
  | cons v rest ih =>
    intro i sz az h
    have hv : ¬ v > 8 := by
      have := h v (by simp)
      omega
    by_cases hv0 : v > 0 <;> simp only [bitpack_go, hv, hv0, if_true, if_false] <;>
      exact ih _ _ _ (fun w hw => h w (by simp [hw]))

lemma iterBuildBT_invariant (n : Nat) :
    (iterBuildBT n).bt = true ∧ (iterBuildBT n).output_seq = n % 16 := by
  induction n with
  | zero => exact ⟨rfl, rfl⟩
  | succ k ih =>
    obtain ⟨hbt, hseq⟩ := ih
    unfold iterBuildBT
    rw [dualsense_init_output_report]
    simp only [hbt, if_true]
    refine ⟨by trivial, ?_⟩
    simp only [hseq]
    split <;> omega

/-! ## Claim theorems -/

/-- C1: for every Bluetooth output report, `dualsense_send_output_report`
keeps the first `len-4` bytes and stores
`~crc32(crc32(0xFFFFFFFF, [0xA2]), buffer[0..len-4])` little-endian in
the final 4 bytes, so recomputing the CRC over the first `len-4` bytes
of the written buffer with seed byte 0xA2 matches the trailing 4 bytes;
a USB report is written unsigned and unchanged. -/
theorem bt_output_crc_signature (data : List Nat) (h : 4 ≤ data.length) :
    (dualsense_send_output_report true data).length = data.length ∧
    (dualsense_send_output_report true data).take (data.length - 4) =
      data.take (data.length - 4) ∧
    (dualsense_send_output_report true data).drop (data.length - 4) =
      le32 (0xFFFFFFFF ^^^ crc32_le (crc32_le 0xFFFFFFFF [PS_OUTPUT_CRC32_SEED])
        ((dualsense_send_output_report true data).take (data.length - 4))) ∧
    dualsense_send_output_report false data = data := by
  have hlt : (data.take (data.length - 4)).length = data.length - 4 := by
    simp [List.length_take]
  have htk : (dualsense_send_output_report true data).take (data.length - 4) =
      data.take (data.length - 4) := by
    simp only [dualsense_send_output_report, if_true]
    exact List.take_left' hlt
  refine ⟨?_, htk, ?_, rfl⟩
  · simp only [dualsense_send_output_report, if_true, List.length_append, hlt, le32,
      List.length_cons, List.length_nil]
    omega
  · rw [htk]
    simp only [dualsense_send_output_report, if_true]
    exact List.drop_left' hlt

/-- Witness for C1 at the concrete 8-byte buffer `[49, 7, 16, 1, 0, 0, 0, 0]`. -/
theorem bt_output_crc_signature_witness :
    4 ≤ ([49, 7, 16, 1, 0, 0, 0, 0] : List Nat).length ∧
    ((dualsense_send_output_report true [49, 7, 16, 1, 0, 0, 0, 0]).length =
      ([49, 7, 16, 1, 0, 0, 0, 0] : List Nat).length ∧
    (dualsense_send_output_report true [49, 7, 16, 1, 0, 0, 0, 0]).take
        (([49, 7, 16, 1, 0, 0, 0, 0] : List Nat).length - 4) =
      ([49, 7, 16, 1, 0, 0, 0, 0] : List Nat).take
        (([49, 7, 16, 1, 0, 0, 0, 0] : List Nat).length - 4) ∧
    (dualsense_send_output_report true [49, 7, 16, 1, 0, 0, 0, 0]).drop
        (([49, 7, 16, 1, 0, 0, 0, 0] : List Nat).length - 4) =
      le32 (0xFFFFFFFF ^^^ crc32_le (crc32_le 0xFFFFFFFF [PS_OUTPUT_CRC32_SEED])
        ((dualsense_send_output_report true [49, 7, 16, 1, 0, 0, 0, 0]).take
          (([49, 7, 16, 1, 0, 0, 0, 0] : List Nat).length - 4))) ∧
    dualsense_send_output_report false [49, 7, 16, 1, 0, 0, 0, 0] =
      [49, 7, 16, 1, 0, 0, 0, 0]) :=
  ⟨by decide, bt_output_crc_signature [49, 7, 16, 1, 0, 0, 0, 0] (by decide)⟩

set_option maxRecDepth 10000 in
/-- C2 (counterexample): the USB report built by `lightbar on` is 63
bytes including the report id, not 64, and the BT report is 78 bytes,
not 79, refuting the claimed 64/79 totals. -/
theorem output_report_size_counterexample :
    (command_lightbar1 usbSession "on").sent.map List.length = some 63 ∧
    (command_lightbar1 usbSession "on").sent.map List.length ≠ some 64 ∧
    (command_lightbar1 btSession "on").sent.map List.length = some 78 ∧
    (command_lightbar1 btSession "on").sent.map List.length ≠ some 79 := by
  refine ⟨by decide, ?_, by decide, ?_⟩ <;> decide

/-- C2 (amended): every output report any command hands to the
transport is exactly 63 bytes for USB and exactly 78 bytes for
Bluetooth, including the leading report id, regardless of the command. -/
theorem output_report_sizes (ds : Dualsense) (cmd : Cmd) :
    (runCmd ds cmd).sent.elim True (fun out => out.length = if ds.bt then 78 else 63) := by
  have hb := builtOK_runCmd ds cmd
  cases h : (runCmd ds cmd).built with
  | none => simp [SendResult.sent, h]
  | some rp =>
    obtain ⟨hbt, hwf⟩ := hb rp (by simp [h])
    have hlen := serializeReport_length rp hwf
    have h4 : 4 ≤ (serializeReport rp).length := by
      rw [hlen]
      split <;> omega
    simp only [SendResult.sent, h, Option.map_some', Option.elim_some]
    rw [send_length rp.bt _ h4, hlen, hbt]

set_option maxRecDepth 100000 in
set_option maxHeartbeats 1000000 in
/-- C3: the battery status byte maps as the code's switch does: charging
code 0x0/0x1 give `min(nibble*10+5, 100)` with states discharging and
charging, 0x2 forces capacity 100 with state full, 0xA/0xB give 0 and
not-charging, and every other code gives 0 and unknown; in particular
status byte 0x05 yields (55, discharging). -/
theorem battery_status_mapping :
    (∀ status : Nat, status < 256 →
      ((status >>> 4) &&& 0xF = 0x0 →
        batteryFromStatus status = (min ((status &&& 0xF) * 10 + 5) 100, "discharging")) ∧
      ((status >>> 4) &&& 0xF = 0x1 →
        batteryFromStatus status = (min ((status &&& 0xF) * 10 + 5) 100, "charging")) ∧
      ((status >>> 4) &&& 0xF = 0x2 → batteryFromStatus status = (100, "full")) ∧
      ((status >>> 4) &&& 0xF = 0xA ∨ (status >>> 4) &&& 0xF = 0xB →
        batteryFromStatus status = (0, "not-charging")) ∧
      (¬((status >>> 4) &&& 0xF = 0x0 ∨ (status >>> 4) &&& 0xF = 0x1 ∨
         (status >>> 4) &&& 0xF = 0x2 ∨ (status >>> 4) &&& 0xF = 0xA ∨
         (status >>> 4) &&& 0xF = 0xB) → batteryFromStatus status = (0, "unknown"))) ∧
    batteryFromStatus 0x05 = (55, "discharging") := by
  constructor
  · decide
  · decide

/-- Witness for C3 at status bytes 0x05, 0x25 and 0xF3. -/
theorem battery_status_mapping_witness :
    batteryFromStatus 0x05 = (55, "discharging") ∧
    batteryFromStatus 0x25 = (100, "full") ∧
    batteryFromStatus 0xF3 = (0, "unknown") :=
  ⟨(battery_status_mapping.1 0x05 (by decide)).1 (by decide),
   (battery_status_mapping.1 0x25 (by decide)).2.2.1 (by decide),
   (battery_status_mapping.1 0xF3 (by decide)).2.2.2.2 (by decide)⟩

set_option maxRecDepth 10000 in
set_option maxHeartbeats 1000000 in
/-- C4: for every valid feedback effect (position 0–9, strength 1–8)
the packing succeeds, bit `i` of the 16-bit zone bitmap is set exactly
for the zone indices `i ≥ position` (and no bit at or above 10), the
3-bit field at bit offset `3*i` of the 32-bit strength accumulator
equals `strength-1` for every set index, and the frequency parameter
byte of the built report is 0. -/
theorem feedback_zone_bitpacking (position strength : Nat)
    (hp : position ≤ 9) (hs1 : 1 ≤ strength) (hs8 : strength ≤ 8) :
    ((bitpack_go (feedback_strength_array position strength) 0 0 0).isSome = true) ∧
    (∀ i < 16, ((bitpack_go (feedback_strength_array position strength) 0 0 0).getD
      (0, 0)).2.testBit i = decide (position ≤ i ∧ i < 10)) ∧
    (∀ i < 10, position ≤ i →
      (((bitpack_go (feedback_strength_array position strength) 0 0 0).getD
        (0, 0)).1 >>> (3 * i)) &&& 7 = strength - 1) ∧
    (∀ (ds : Dualsense) (trigger : String),
      ((command_trigger_feedback ds trigger position strength).built.map fun rp =>
        (rp.common.right_trigger_param.getD 8 0, rp.common.left_trigger_param.getD 8 0)) =
      some (0, 0)) := by
  have hfreq : ∀ (ds : Dualsense) (trigger : String),
      ((command_trigger_feedback ds trigger position strength).built.map fun rp =>
        (rp.common.right_trigger_param.getD 8 0, rp.common.left_trigger_param.getD 8 0)) =
      some (0, 0) := by
    intro ds trigger
    have hpos : ¬ position > 9 := by omega
    have hstr : ¬ (strength > 8 ∨ ¬ strength > 0) := by omega
    simp only [command_trigger_feedback, hpos, hstr, if_false, trigger_bitpacking_array]
    have hsome := bitpack_go_isSome (feedback_strength_array position strength) 0 0 0 (by
      intro v hv
      simp only [feedback_strength_array, List.mem_map] at hv
      obtain ⟨i, _, rfl⟩ := hv
      split <;> omega)
    cases hb : bitpack_go (feedback_strength_array position strength) 0 0 0 with
    | none =>
      rw [hb] at hsome
      simp at hsome
    | some pr =>
      obtain ⟨sz, az⟩ := pr
      have h := command_trigger_params ds trigger DS_TRIGGER_EFFECT_FEEDBACK
        ((az >>> 0) &&& 0xff) ((az >>> 8) &&& 0xff) ((sz >>> 0) &&& 0xff)
        ((sz >>> 8) &&& 0xff) ((sz >>> 16) &&& 0xff) ((sz >>> 24) &&& 0xff) 0 0 0
      simp only [command_trigger, Option.elim_some] at h
      simp only [command_trigger, Option.map_some', h.1, h.2]
      rfl
  have hmain : ((bitpack_go (feedback_strength_array position strength) 0 0 0).isSome = true) ∧
      (∀ i < 16, ((bitpack_go (feedback_strength_array position strength) 0 0 0).getD
        (0, 0)).2.testBit i = decide (position ≤ i ∧ i < 10)) ∧
      (∀ i < 10, position ≤ i →
        (((bitpack_go (feedback_strength_array position strength) 0 0 0).getD
          (0, 0)).1 >>> (3 * i)) &&& 7 = strength - 1) := by
    interval_cases position <;> interval_cases strength <;> decide
  exact ⟨hmain.1, hmain.2.1, hmain.2.2, hfreq⟩

/-- Witness for C4 at position 3, strength 5, side right on a USB session. -/
theorem feedback_zone_bitpacking_witness :
    (3 ≤ 9 ∧ 1 ≤ 5 ∧ 5 ≤ 8) ∧
    ((bitpack_go (feedback_strength_array 3 5) 0 0 0).isSome = true) ∧
    (∀ i < 16, ((bitpack_go (feedback_strength_array 3 5) 0 0 0).getD
      (0, 0)).2.testBit i = decide (3 ≤ i ∧ i < 10)) ∧
    (∀ i < 10, 3 ≤ i →
      (((bitpack_go (feedback_strength_array 3 5) 0 0 0).getD
        (0, 0)).1 >>> (3 * i)) &&& 7 = 5 - 1) ∧
    ((command_trigger_feedback usbSession "right" 3 5).built.map fun rp =>
      (rp.common.right_trigger_param.getD 8 0, rp.common.left_trigger_param.getD 8 0)) =
    some (0, 0) :=
  ⟨by decide,
   (feedback_zone_bitpacking 3 5 (by decide) (by decide) (by decide)).1,
   (feedback_zone_bitpacking 3 5 (by decide) (by decide) (by decide)).2.1,
   (feedback_zone_bitpacking 3 5 (by decide) (by decide) (by decide)).2.2.1,
   (feedback_zone_bitpacking 3 5 (by decide) (by decide) (by decide)).2.2.2 usbSession "right"⟩

/-- C5: starting from a fresh Bluetooth session, the N-th output report
initialized (counting from 0) carries `N mod 16` in the high nibble of
its second byte, the 4-bit counter after N builds equals `N mod 16`
(so it starts at 0, advances by one per report and wraps 15 → 0), and
initializing a USB report leaves the session, hence the counter,
unchanged. -/
theorem bt_sequence_counter (n : Nat) :
    ((serializeReport (dualsense_init_output_report (iterBuildBT n)).1).getD 1 0) >>> 4 =
      n % 16 ∧
    (iterBuildBT n).output_seq = n % 16 ∧
    (∀ seq : Nat, (dualsense_init_output_report { bt := false, output_seq := seq }).2 =
      { bt := false, output_seq := seq }) := by
  obtain ⟨hbt, hseq⟩ := iterBuildBT_invariant n
  refine ⟨?_, hseq, fun seq => rfl⟩
  rw [dualsense_init_output_report]
  simp only [hbt, if_true]
  rw [serializeReport]
  simp only [if_true]
  simp only [List.getD_cons_succ, List.getD_cons_zero]
  rw [hseq]
  have h16 : n % 16 < 16 := Nat.mod_lt _ (by norm_num)
  simp [Nat.shiftLeft_eq, Nat.shiftRight_eq_div_pow]
  omega

/-- C6: weapon validation succeeds (returns 0 and builds a report)
exactly when start is 2–7, end is start+1–8 and strength is 1–8; in
particular `weapon right 2 8 8` succeeds while `weapon right 1 8 8`
fails with exit 1, building nothing. -/
theorem weapon_validation_range :
    (∀ (ds : Dualsense) (trigger : String) (s e st : Nat),
      ((command_trigger_weapon ds trigger s e st).exit = 0 ∧
       (command_trigger_weapon ds trigger s e st).built.isSome = true) ↔
      (2 ≤ s ∧ s ≤ 7 ∧ s + 1 ≤ e ∧ e ≤ 8 ∧ 1 ≤ st ∧ st ≤ 8)) ∧
    (command_trigger_weapon usbSession "right" 2 8 8).exit = 0 ∧
    command_trigger_weapon usbSession "right" 1 8 8 =
      { ds := usbSession, built := none, exit := 1 } := by
  refine ⟨?_, by decide, by decide⟩
  intro ds trigger s e st
  constructor
  · intro ⟨he, hb⟩
    by_contra hc
    unfold command_trigger_weapon at he hb
    split_ifs at he hb
    omega
  · intro hc
    have h1 : ¬ (s > 7 ∨ s < 2) := by omega
    have h2 : ¬ (e > 8 ∨ e < s + 1) := by omega
    have h3 : ¬ (st > 8 ∨ ¬ st > 0) := by omega
    simp only [command_trigger_weapon, h1, h2, h3, if_false]
    exact ⟨rfl, rfl⟩

/-- C7: the bow command rejects `start_position = 0` — an input inside
the range its own diagnostic ("start position must be between 0 and 8")
and the spec document — returning 1 with no report built. -/
theorem bow_rejects_documented_start_zero :
    command_trigger_bow usbSession "right" 0 1 1 1 =
      { ds := usbSession, built := none, exit := 1 } := by
  decide

/-- C8 (counterexample): `vibration-raw` with frequency 0 — outside the
documented `frequency > 0` bound — raises no validation error: it
returns 0, builds and sends a report, and advances the BT sequence
counter, refuting the claim that every out-of-range parameter fails
before I/O with the session unchanged. -/
theorem vibration_raw_frequency_unchecked :
    (command_trigger_vibration_raw btSession "right" [1, 1, 1, 1, 1, 1, 1, 1, 1, 1] 0).exit =
      0 ∧
    (command_trigger_vibration_raw btSession "right"
      [1, 1, 1, 1, 1, 1, 1, 1, 1, 1] 0).built.isSome = true ∧
    (command_trigger_vibration_raw btSession "right" [1, 1, 1, 1, 1, 1, 1, 1, 1, 1] 0).ds ≠
      btSession := by
  refine ⟨rfl, rfl, ?_⟩
  decide

/-- C8 (amended): every trigger-effect command invoked with a parameter
outside its documented range — except the rawVibration frequency bound,
which the code never checks — returns 1 with the session state
unchanged and no report built or written. -/
theorem trigger_validation_no_io (ds : Dualsense) (trigger : String) :
    (∀ pos st : Nat, ¬(pos ≤ 9 ∧ 1 ≤ st ∧ st ≤ 8) →
      command_trigger_feedback ds trigger pos st = ⟨ds, none, 1⟩) ∧
    (∀ s e st : Nat, ¬(2 ≤ s ∧ s ≤ 7 ∧ s + 1 ≤ e ∧ e ≤ 8 ∧ 1 ≤ st ∧ st ≤ 8) →
      command_trigger_weapon ds trigger s e st = ⟨ds, none, 1⟩) ∧
    (∀ s e st sn : Nat, ¬(s ≤ 8 ∧ s + 1 ≤ e ∧ e ≤ 8 ∧ 1 ≤ st ∧ st ≤ 8 ∧ 1 ≤ sn ∧ sn ≤ 8) →
      command_trigger_bow ds trigger s e st sn = ⟨ds, none, 1⟩) ∧
    (∀ s e ff sf fr : Nat,
      ¬(s ≤ 8 ∧ s + 1 ≤ e ∧ e ≤ 9 ∧ ff ≤ 6 ∧ ff + 1 ≤ sf ∧ sf ≤ 7 ∧ 1 ≤ fr) →
      command_trigger_galloping ds trigger s e ff sf fr = ⟨ds, none, 1⟩) ∧
    (∀ s e sa sb fr pe : Nat,
      ¬(1 ≤ s ∧ s ≤ 8 ∧ s + 1 ≤ e ∧ e ≤ 9 ∧ sa ≤ 7 ∧ sb ≤ 7 ∧ 1 ≤ fr) →
      command_trigger_machine ds trigger s e sa sb fr pe = ⟨ds, none, 1⟩) ∧
    (∀ pos a f : Nat, ¬(pos ≤ 9 ∧ 1 ≤ a ∧ a ≤ 8 ∧ 1 ≤ f) →
      command_trigger_vibration ds trigger pos a f = ⟨ds, none, 1⟩) ∧
    (∀ l : List Nat, (∃ v ∈ l, v > 8) →
      command_trigger_feedback_raw ds trigger l = ⟨ds, none, 1⟩) ∧
    (∀ (l : List Nat) (f : Nat), (∃ v ∈ l, v > 8) →
      command_trigger_vibration_raw ds trigger l f = ⟨ds, none, 1⟩) := by
  refine ⟨?_, ?_, ?_, ?_, ?_, ?_, ?_, ?_⟩
  · intro pos st h
    unfold command_trigger_feedback
    split_ifs with h1 h2 <;> first | rfl | omega
  · intro s e st h
    unfold command_trigger_weapon
    split_ifs with h1 h2 h3 <;> first | rfl | omega
  · intro s e st sn h
    unfold command_trigger_bow
    split_ifs with h1 h2 h3 h4 <;> first | rfl | omega
  · intro s e ff sf fr h
    unfold command_trigger_galloping
    split_ifs with h1 h2 h3 h4 h5 <;> first | rfl | omega
  · intro s e sa sb fr pe h
    unfold command_trigger_machine
    split_ifs with h1 h2 h3 h4 h5 <;> first | rfl | omega
  · intro pos a f h
    unfold command_trigger_vibration
    split_ifs with h1 h2 h3 <;> first | rfl | omega
  · intro l h
    unfold command_trigger_feedback_raw trigger_bitpacking_array
    rw [bitpack_go_none l 0 0 0 h]
  · intro l f h
    unfold command_trigger_vibration_raw trigger_bitpacking_array
    rw [bitpack_go_none l 0 0 0 h]

/-- Witness for C8 (amended): feedback with position 10 on a BT session
fails with exit 1, no report, counter untouched. -/
theorem trigger_validation_no_io_witness :
    ¬(10 ≤ 9 ∧ 1 ≤ 5 ∧ 5 ≤ 8) ∧
    command_trigger_feedback btSession "right" 10 5 =
      ⟨btSession, none, 1⟩ :=
  ⟨by decide, (trigger_validation_no_io btSession "right").1 10 5 (by decide)⟩

/-- C9: for every side string and parameter tuple, `command_trigger`
writes the mode byte and the nine parameter bytes identically into both
trigger blocks; the side argument determines only the right/left enable
bits of valid-flag-0, all other report content being independent of the
side. -/
theorem trigger_side_mirroring (ds : Dualsense) (t : String)
    (m p1 p2 p3 p4 p5 p6 p7 p8 p9 : Nat) :
    ((command_trigger ds t m p1 p2 p3 p4 p5 p6 p7 p8 p9).built.elim False (fun rp =>
      rp.common.left_trigger_motor_mode = m ∧
      rp.common.right_trigger_motor_mode = m ∧
      rp.common.left_trigger_param = rp.common.right_trigger_param ∧
      rp.common.valid_flag0 =
        ((if t = "right" ∨ t = "both" then DS_OUTPUT_VALID_FLAG0_RIGHT_TRIGGER_MOTOR_ENABLE
          else 0) |||
         (if t = "left" ∨ t = "both" then DS_OUTPUT_VALID_FLAG0_LEFT_TRIGGER_MOTOR_ENABLE
          else 0)))) ∧
    (∀ t' : String,
      ((command_trigger ds t' m p1 p2 p3 p4 p5 p6 p7 p8 p9).built.map fun rp =>
        { rp.common with valid_flag0 := 0 }) =
      ((command_trigger ds t m p1 p2 p3 p4 p5 p6 p7 p8 p9).built.map fun rp =>
        { rp.common with valid_flag0 := 0 })) := by
  constructor
  · simp only [command_trigger, Option.elim_some, init_common]
    refine ⟨by simp, by simp, by simp, ?_⟩
    split_ifs <;> simp
  · intro t'
    simp only [command_trigger, Option.map_some']

/-- C10: every report a trigger-effect command builds has byte index 9
(the 10th, last byte) of both 10-byte trigger parameter arrays equal to
0: the buffer is zero-filled at init and `command_trigger` writes only
indices 0 through 8. -/
theorem trigger_param_last_byte_zero (ds : Dualsense) (tc : TCmd) :
    (runTCmd ds tc).built.elim True (fun rp =>
      rp.common.right_trigger_param.getD 9 0 = 0 ∧
      rp.common.left_trigger_param.getD 9 0 = 0) := by
  show param9Zero (runTCmd ds tc)
  cases tc <;>
    simp only [runTCmd, command_trigger_off, command_trigger_feedback,
      command_trigger_weapon, command_trigger_bow, command_trigger_galloping,
      command_trigger_machine, command_trigger_vibration,
      command_trigger_feedback_raw, command_trigger_vibration_raw] <;>
    first
      | exact param9Zero_command_trigger ds _ _ _ _ _ _ _ _ _ _ _
      | exact param9Zero_bitpacking ds _ _ _ _
      | (split_ifs <;>
          first
            | exact param9Zero_err ds _
            | exact param9Zero_command_trigger ds _ _ _ _ _ _ _ _ _ _ _
            | exact param9Zero_bitpacking ds _ _ _ _)

end Dualsensectl
